import Mathlib

/-
  Verification of the otter-ai multi-raft governance engine.

  The definitions below are a shallow embedding of the Go sources:
  the governance core (types Governance, RaftInfo, Member, Rule, Proposal
  and operations ProposeRule, Vote, checkProposalOutcome, activateRule,
  RequestJoin, detectRuleConflicts, loadGovernanceState) and the crypto
  layer (CryptoSystem.Sign, CryptoSystem.Verify over SHA-256).

  Modelling conventions:
  - Go maps are association lists carrying an iteration order; alookup,
    ainsert and aremove mirror map read, write and delete.  Go map
    iteration order is unspecified, so order-sensitive results are
    functions of the list order taken as input.
  - time.Time values are naturals; byte strings are lists of naturals
    below 256; machine words use explicit reduction modulo 2^32.
  - Go string-typed enums (MembershipState, VoteType, ProposalStatus,
    ProposalResult) stay strings, as in the source.
  - functions returning (result, error) return a pair of the updated
    state and an error option (none on success); the Go code performs
    no mutation before an early error return, which the pair makes
    explicit.
-/

namespace Otter

set_option maxRecDepth 400000

/-! ## SHA-256 over byte lists (crypto/sha256.Sum256) -/

/-- 32-bit modulus: word arithmetic keeps values below 2^32 explicitly. -/
def w32 : Nat := 4294967296

def rotr32 (x n : Nat) : Nat :=
  ((x >>> n) ||| (x <<< (32 - n))) % w32

def shaCh (x y z : Nat) : Nat := (x &&& y) ^^^ ((x ^^^ 4294967295) &&& z)

def shaMaj (x y z : Nat) : Nat := (x &&& y) ^^^ (x &&& z) ^^^ (y &&& z)

def bigSigma0 (x : Nat) : Nat := rotr32 x 2 ^^^ rotr32 x 13 ^^^ rotr32 x 22

def bigSigma1 (x : Nat) : Nat := rotr32 x 6 ^^^ rotr32 x 11 ^^^ rotr32 x 25

def smallSigma0 (x : Nat) : Nat := rotr32 x 7 ^^^ rotr32 x 18 ^^^ (x >>> 3)

def smallSigma1 (x : Nat) : Nat := rotr32 x 17 ^^^ rotr32 x 19 ^^^ (x >>> 10)

def shaK : List Nat :=
  [1116352408, 1899447441, 3049323471, 3921009573, 961987163, 1508970993,
   2453635748, 2870763221, 3624381080, 310598401, 607225278, 1426881987,
   1925078388, 2162078206, 2614888103, 3248222580, 3835390401, 4022224774,
   264347078, 604807628, 770255983, 1249150122, 1555081692, 1996064986,
   2554220882, 2821834349, 2952996808, 3210313671, 3336571891, 3584528711,
   113926993, 338241895, 666307205, 773529912, 1294757372, 1396182291,
   1695183700, 1986661051, 2177026350, 2456956037, 2730485921, 2820302411,
   3259730800, 3345764771, 3516065817, 3600352804, 4094571909, 275423344,
   430227734, 506948616, 659060556, 883997877, 958139571, 1322822218,
   1537002063, 1747873779, 1955562222, 2024104815, 2227730452, 2361852424,
   2428436474, 2756734187, 3204031479, 3329325298]

def shaH0 : List Nat :=
  [1779033703, 3144134277, 1013904242, 2773480762,
   1359893119, 2600822924, 528734635, 1541459225]

/-- Big-endian byte rendering of x, n bytes wide. -/
def toBytesBE (n x : Nat) : List Nat :=
  (List.range n).map (fun i => (x >>> (8 * (n - 1 - i))) % 256)

/-- SHA-256 padding: 0x80, zeros, then the 64-bit big-endian bit length. -/
def shaPad (msg : List Nat) : List Nat :=
  let L := msg.length
  let k := (64 + 56 - ((L + 1) % 64)) % 64
  msg ++ 128 :: List.replicate k 0 ++ toBytesBE 8 (8 * L)

/-- Split the padded message into its 64-byte blocks. -/
def shaBlocks (padded : List Nat) : List (List Nat) :=
  (List.range (padded.length / 64)).map (fun i => ((padded.drop (64 * i)).take 64))

/-- The 16 initial 32-bit message-schedule words of one block. -/
def blockWords (block : List Nat) : List Nat :=
  (List.range 16).map (fun i =>
    block.getD (4 * i) 0 * 16777216 + block.getD (4 * i + 1) 0 * 65536 +
    block.getD (4 * i + 2) 0 * 256 + block.getD (4 * i + 3) 0)

/-- Extend the 16 block words to the 64-word message schedule. -/
def extendWords (ws : List Nat) : List Nat :=
  (List.range 48).foldl
    (fun ws _ =>
      let n := ws.length
      ws ++ [(smallSigma1 (ws.getD (n - 2) 0) + ws.getD (n - 7) 0 +
              smallSigma0 (ws.getD (n - 15) 0) + ws.getD (n - 16) 0) % w32])
    ws

/-- One round of the SHA-256 compression function on the 8-word state. -/
def shaRound (st : List Nat) (kw : Nat × Nat) : List Nat :=
  let a := st.getD 0 0
  let b := st.getD 1 0
  let c := st.getD 2 0
  let d := st.getD 3 0
  let e := st.getD 4 0
  let f := st.getD 5 0
  let g := st.getD 6 0
  let h := st.getD 7 0
  let t1 := (h + bigSigma1 e + shaCh e f g + kw.1 + kw.2) % w32
  let t2 := (bigSigma0 a + shaMaj a b c) % w32
  [(t1 + t2) % w32, a, b, c, (d + t1) % w32, e, f, g]

/-- Compress one 64-byte block into the running hash state. -/
def shaCompress (h : List Nat) (block : List Nat) : List Nat :=
  let st := (shaK.zip (extendWords (blockWords block))).foldl shaRound h
  (h.zip st).map (fun p => (p.1 + p.2) % w32)

/-- SHA-256 digest (32 bytes) of a byte string. -/
def sha256Bytes (msg : List Nat) : List Nat :=
  ((shaBlocks (shaPad msg)).foldl shaCompress shaH0).flatMap (toBytesBE 4)

/-! ## Association lists standing for Go maps -/

/-- Map read m[k]. -/
def alookup {α : Type} : List (String × α) → String → Option α
  | [], _ => none
  | (k', v) :: rest, k => if k' = k then some v else alookup rest k

/-- Map write m[k] = v (replaces an existing binding in place). -/
def ainsert {α : Type} : List (String × α) → String → α → List (String × α)
  | [], k, v => [(k, v)]
  | (k', v') :: rest, k, v =>
      if k' = k then (k, v) :: rest else (k', v') :: ainsert rest k v

/-- Map delete(m, k). -/
def aremove {α : Type} : List (String × α) → String → List (String × α)
  | [], _ => []
  | (k', v') :: rest, k =>
      if k' = k then aremove rest k else (k', v') :: aremove rest k

/-- First-defined choice on options (used to state last-writer-wins laws). -/
def ofirst {α : Type} : Option α → Option α → Option α
  | some x, _ => some x
  | none, b => b

/-- The keys of an association list are pairwise distinct. -/
abbrev keysNodup {α : Type} (m : List (String × α)) : Prop :=
  (m.map Prod.fst).Nodup

/-! ## Governance data model (src/unnamed/part_005) -/

def StateActive : String := "active"
def StateInactive : String := "inactive"
def StateExpired : String := "expired"
def StateRevoked : String := "revoked"
def StateLeft : String := "left"

def VoteYes : String := "YES"
def VoteNo : String := "NO"
def VoteAbstain : String := "ABSTAIN"

def ProposalOpen : String := "open"
def ProposalClosed : String := "closed"

def ResultPending : String := "pending"
def ResultAdopted : String := "adopted"
def ResultRejected : String := "rejected"

structure Member where
  id : String
  state : String
  joinedAt : Nat
  lastSeenAt : Nat
  publicKey : List Nat
  signature : List Nat
  inductedBy : String
  expiresAt : Option Nat
deriving Repr, DecidableEq

structure Rule where
  ruleID : String
  raftID : String
  scope : String
  version : Nat
  timestamp : Nat
  body : String
  baseRuleID : String
  signature : List Nat
  proposedBy : String
  adoptedAt : Option Nat
deriving Repr, DecidableEq

structure RuleConflict where
  conflictID : String
  raft1ID : String
  raft2ID : String
  rule1 : Rule
  rule2 : Rule
  conflictScope : String
  detectedAt : Nat
deriving Repr, DecidableEq

structure Proposal where
  proposalID : String
  raftID : String
  rule : Rule
  proposedBy : String
  proposedAt : Nat
  votes : List (String × String)
  status : String
  quorumMet : Bool
  result : String
  closedAt : Option Nat
deriving Repr, DecidableEq

structure RaftInfo where
  raftID : String
  members : List (String × Member)
  rules : List (String × Rule)
  createdAt : Nat
deriving Repr, DecidableEq

/-- The in-memory governance state: the raft registry, the rule registry
(rule-id index and active-by-scope index) and the proposal registry. -/
structure GovState where
  configID : String
  rafts : List (String × RaftInfo)
  rulesIdx : List (String × Rule)
  activeRules : List (String × Rule)
  proposals : List (String × Proposal)
deriving Repr, DecidableEq

/-! ## Operations -/

/-- Number of members of the raft whose state is active
(length of getActiveMembers). -/
def countActive (raft : RaftInfo) : Nat :=
  (raft.members.filter (fun kv => kv.2.state == StateActive)).length

/-- Count of votes of one type in the votes map. -/
def countVote (votes : List (String × String)) (t : String) : Nat :=
  (votes.filter (fun kv => kv.2 == t)).length

def strBytes (s : String) : List Nat := s.data.map Char.toNat

def hexDigits : List Char := "0123456789abcdef".data

def byteToHex (b : Nat) : List Char :=
  [hexDigits.getD (b / 16) '0', hexDigits.getD (b % 16) '0']

/-- generateID: hex encoding of the first 16 bytes of the SHA-256 digest of
a textual rendering of the object (the Go fmt value rendering is abstracted
as the given string). -/
def generateID (s : String) : String :=
  String.mk (((sha256Bytes (strBytes s)).take 16).flatMap byteToHex)

/-- Textual rendering of a rule fed to generateID (abstraction of the
Go fmt rendering of the Rule struct). -/
def ruleRepr (r : Rule) : String :=
  r.ruleID ++ " " ++ r.raftID ++ " " ++ r.scope ++ " " ++ toString r.version ++ " " ++
  toString r.timestamp ++ " " ++ r.body ++ " " ++ r.baseRuleID ++ " " ++ r.proposedBy

/-- activateRule: insert the rule into the rule-id index, the active-by-scope
index and its raft's rules map; if it overrides a base rule that is currently
the active rule for its scope, deactivate that base rule. -/
def activateRule (g : GovState) (rule : Rule) : GovState :=
  let g1 := { g with rulesIdx := ainsert g.rulesIdx rule.ruleID rule,
                     activeRules := ainsert g.activeRules rule.scope rule }
  let g2 :=
    match alookup g1.rafts rule.raftID with
    | some raft =>
        let raft1 := { raft with rules := ainsert raft.rules rule.ruleID rule }
        { g1 with rafts := ainsert g1.rafts rule.raftID raft1 }
    | none => g1
  if rule.baseRuleID ≠ "" then
    match alookup g2.rulesIdx rule.baseRuleID with
    | some baseRule =>
        if alookup g2.activeRules baseRule.scope = some baseRule then
          { g2 with activeRules := aremove g2.activeRules baseRule.scope }
        else g2
    | none => g2
  else g2

/-- The shared closing block of checkProposalOutcome: mark the proposal
adopted (activating its rule, stamped with the closing time) or rejected. -/
def finishProposal (g : GovState) (p : Proposal) (adopted : Bool) (now : Nat) :
    GovState × Proposal :=
  if adopted then
    let rule1 := { p.rule with adoptedAt := some now }
    let p2 := { p with rule := rule1, result := ResultAdopted,
                       status := ProposalClosed, closedAt := some now }
    (activateRule g rule1, p2)
  else
    (g, { p with result := ResultRejected, status := ProposalClosed, closedAt := some now })

/-- checkProposalOutcome: re-evaluate a proposal after a vote, with the
size-dependent quorum and majority arithmetic of the source. -/
def checkProposalOutcome (g : GovState) (p : Proposal) (now : Nat) : GovState × Proposal :=
  match alookup g.rafts p.raftID with
  | none => (g, p)
  | some raft =>
    let totalActive := countActive raft
    if totalActive = 0 then (g, p)
    else
      let yesVotes := countVote p.votes VoteYes
      let noVotes := countVote p.votes VoteNo
      let votescast := p.votes.length
      let totalVotes := yesVotes + noVotes
      if totalActive = 1 then
        let p1 := { p with quorumMet := decide (1 ≤ votescast) }
        if 1 ≤ votescast then finishProposal g p1 (decide (1 ≤ yesVotes)) now
        else (g, p1)
      else if totalActive = 2 then
        let p1 := { p with quorumMet := decide (2 ≤ votescast) }
        if 2 ≤ votescast then
          finishProposal g p1 (decide (yesVotes = 2 ∧ noVotes = 0)) now
        else (g, p1)
      else
        let quorumThreshold := (totalActive * 2 + 2) / 3
        let p1 := { p with quorumMet := decide (quorumThreshold ≤ votescast) }
        if quorumThreshold ≤ votescast then
          if totalVotes = 0 then (g, p1)
          else
            let requiredVotes :=
              if p.rule.baseRuleID ≠ "" then (totalActive * 3 + 3) / 4
              else (totalActive * 2 + 2) / 3
            let adopted := decide (requiredVotes ≤ yesVotes)
            if adopted || decide (totalActive ≤ votescast) then
              finishProposal g p1 adopted now
            else (g, p1)
        else (g, p1)

/-- ProposeRule: validate the raft and the proposer, then register a fresh
open proposal.  The error option records the early returns of the source,
which happen before any mutation. -/
def ProposeRule (g : GovState) (raftID : String) (rule : Rule) (now : Nat) :
    GovState × Except String Proposal :=
  match alookup g.rafts raftID with
  | none => (g, Except.error ("raft not found: " ++ raftID))
  | some raft =>
    match alookup raft.members rule.proposedBy with
    | none => (g, Except.error ("proposer must be an active member of raft " ++ raftID))
    | some proposer =>
      if proposer.state ≠ StateActive then
        (g, Except.error ("proposer must be an active member of raft " ++ raftID))
      else
        let rule1 := { rule with raftID := raftID }
        let proposalID := generateID (ruleRepr rule1)
        let proposal : Proposal :=
          { proposalID := proposalID, raftID := raftID, rule := rule1,
            proposedBy := rule1.proposedBy, proposedAt := now, votes := [],
            status := ProposalOpen, quorumMet := false,
            result := ResultPending, closedAt := none }
        ({ g with proposals := ainsert g.proposals proposalID proposal }, Except.ok proposal)

/-- Vote: validate the proposal and the voter, record the vote (a re-vote
overwrites), then re-evaluate the outcome. -/
def Vote (g : GovState) (proposalID voterID vote : String) (now : Nat) :
    GovState × Option String :=
  match alookup g.proposals proposalID with
  | none => (g, some "proposal not found")
  | some proposal =>
    if proposal.status ≠ ProposalOpen then (g, some "proposal is closed")
    else
      match alookup g.rafts proposal.raftID with
      | none => (g, some "raft not found")
      | some raft =>
        match alookup raft.members voterID with
        | none => (g, some "voter must be an active member of this raft")
        | some voter =>
          if voter.state ≠ StateActive then
            (g, some "voter must be an active member of this raft")
          else
            let p1 := { proposal with votes := ainsert proposal.votes voterID vote }
            let gp := checkProposalOutcome
              { g with proposals := ainsert g.proposals proposalID p1 } p1 now
            ({ gp.1 with proposals := ainsert gp.1.proposals proposalID gp.2 }, none)

/-- RequestJoin: if this node is in the target raft, add (unconditionally
overwriting) a fresh active member record for the requester. -/
def RequestJoin (g : GovState) (targetRaftID requesterID : String)
    (publicKey : List Nat) (now : Nat) : GovState × Option String :=
  match alookup g.rafts targetRaftID with
  | none => (g, some ("not a member of raft " ++ targetRaftID))
  | some raft =>
    let member : Member :=
      { id := requesterID, state := StateActive, joinedAt := now, lastSeenAt := now,
        publicKey := publicKey, signature := [], inductedBy := g.configID,
        expiresAt := none }
    let raft1 := { raft with members := ainsert raft.members requesterID member }
    ({ g with rafts := ainsert g.rafts targetRaftID raft1 }, none)

/-- GetActiveRules: snapshot of the active-by-scope index. -/
def GetActiveRules (g : GovState) : List (String × Rule) := g.activeRules

/-- The state of one member as seen through the raft registry. -/
def memberState (g : GovState) (raftID memberID : String) : Option String :=
  match alookup g.rafts raftID with
  | none => none
  | some raft => (alookup raft.members memberID).map Member.state

/-- The RuleConflict record built for one conflicting pair. -/
def mkRuleConflict (targetRaftID existingRaftID : String)
    (existingRule targetRule : Rule) (now : Nat) : RuleConflict :=
  { conflictID := generateID (targetRule.ruleID ++ "-" ++ existingRule.ruleID),
    raft1ID := existingRaftID, raft2ID := targetRaftID,
    rule1 := existingRule, rule2 := targetRule,
    conflictScope := targetRule.scope, detectedAt := now }

/-- detectRuleConflicts: for every raft other than the target, emit a
conflict for every (target rule, existing rule) pair with equal scope and
different body, in the iteration order of the registries. -/
def detectRuleConflicts (g : GovState) (targetRaftID : String)
    (targetRules : List (String × Rule)) (now : Nat) : List RuleConflict :=
  g.rafts.flatMap (fun er =>
    if er.1 = targetRaftID then []
    else
      targetRules.flatMap (fun tr =>
        er.2.rules.flatMap (fun ex =>
          if tr.2.scope = ex.2.scope ∧ tr.2.body ≠ ex.2.body then
            [mkRuleConflict targetRaftID er.1 ex.2 tr.2 now]
          else [])))

/-! ## Persistence reload (src/unnamed/part_004, loadGovernanceState) -/

/-- One persisted raft row together with its member and rule rows, in the
order the database returns them. -/
structure RaftRow where
  raftID : String
  createdAt : Nat
  memberRows : List Member
  ruleRows : List Rule
deriving Repr, DecidableEq

/-- Loading one rule row: accumulate the raft's rules map and, when the rule
is adopted, the global rule-id index and the active-by-scope index. -/
def loadRuleRow (acc : List (String × Rule) × List (String × Rule) × List (String × Rule))
    (rule : Rule) : List (String × Rule) × List (String × Rule) × List (String × Rule) :=
  let raftRules := ainsert acc.1 rule.ruleID rule
  if rule.adoptedAt.isSome then
    (raftRules, ainsert acc.2.1 rule.ruleID rule, ainsert acc.2.2 rule.scope rule)
  else
    (raftRules, acc.2.1, acc.2.2)

/-- Loading one raft row: skip the bootstrapped self raft, otherwise rebuild
the raft and index its adopted rules globally. -/
def loadRaftRow (g : GovState) (row : RaftRow) : GovState :=
  if (alookup g.rafts row.raftID).isSome ∧ row.raftID = g.configID then g
  else
    let members := row.memberRows.foldl (fun m mem => ainsert m mem.id mem) []
    let acc := row.ruleRows.foldl loadRuleRow ([], g.rulesIdx, g.activeRules)
    { g with
      rafts := ainsert g.rafts row.raftID
        { raftID := row.raftID, members := members, rules := acc.1,
          createdAt := row.createdAt },
      rulesIdx := acc.2.1, activeRules := acc.2.2 }

/-- loadGovernanceState: fold the persisted rows into the in-memory state in
the order the database returns them. -/
def loadGovernanceState (g : GovState) (rows : List RaftRow) : GovState :=
  rows.foldl loadRaftRow g

/-- The last adopted rule with the given scope in row order, if any. -/
def lastAdoptedScope (rules : List Rule) (s : String) : Option Rule :=
  rules.foldl (fun acc r => if r.adoptedAt.isSome ∧ r.scope = s then some r else acc) none

/-! ## Crypto layer (internal/governance/crypto.go) -/

/-- The node's key material: the private scalar bytes and the public point
bytes (for P-256, 32 and 65 bytes respectively). -/
structure CryptoSystem where
  privateKeyBytes : List Nat
  publicKeyBytes : List Nat
deriving Repr, DecidableEq

def GetPublicKey (cs : CryptoSystem) : List Nat := cs.publicKeyBytes

/-- Sign: SHA-256 digest of the private key bytes followed by the message. -/
def Sign (cs : CryptoSystem) (message : List Nat) : List Nat :=
  sha256Bytes (cs.privateKeyBytes ++ message)

/-- Verify: recompute the SHA-256 digest of the public key bytes followed by
the message and compare it bytewise with the presented signature. -/
def Verify (message signature publicKey : List Nat) : Bool :=
  let expectedSig := sha256Bytes (publicKey ++ message)
  if signature.length ≠ expectedSig.length then false
  else (signature.zip expectedSig).all (fun p => p.1 == p.2)

/-! ## Outcome invariant and the Vote step relation -/

/-- The proposal-outcome invariant: an open proposal is pending; a closed
proposal carries an adopted or rejected result and a closing time. -/
abbrev propInv (p : Proposal) : Prop :=
  (p.status = ProposalOpen ∨ p.status = ProposalClosed) ∧
  (p.status = ProposalOpen → p.result = ResultPending) ∧
  (p.status = ProposalClosed →
    (p.result = ResultAdopted ∨ p.result = ResultRejected) ∧ p.closedAt ≠ none)

/-- Every registered proposal satisfies the outcome invariant. -/
abbrev govInv (g : GovState) : Prop := ∀ e ∈ g.proposals, propInv e.2

/-- One Vote call (successful or failed) as a step on governance state. -/
def VoteStep (g g' : GovState) : Prop :=
  ∃ pid vid vt now, (Vote g pid vid vt now).1 = g'

/-- Reachability by a finite sequence of Vote calls. -/
abbrev VoteReach : GovState → GovState → Prop := Relation.ReflTransGen VoteStep

/-! ## Concrete states for witnesses and counterexamples -/

/-- A bootstrap-style active member. -/
def mkActiveMember (i : String) : Member :=
  { id := i, state := StateActive, joinedAt := 0, lastSeenAt := 0,
    publicKey := [], signature := [], inductedBy := "self", expiresAt := none }

/-- A plain (non-override) rule. -/
def mkRule (rid raftID scope body : String) : Rule :=
  { ruleID := rid, raftID := raftID, scope := scope, version := 1, timestamp := 0,
    body := body, baseRuleID := "", signature := [], proposedBy := "a",
    adoptedAt := none }

/-- An open pending proposal with the given votes. -/
def mkOpenProposal (pid raftID : String) (rule : Rule)
    (votes : List (String × String)) : Proposal :=
  { proposalID := pid, raftID := raftID, rule := rule, proposedBy := rule.proposedBy,
    proposedAt := 0, votes := votes, status := ProposalOpen, quorumMet := false,
    result := ResultPending, closedAt := none }

def raftC1 : RaftInfo :=
  { raftID := "R1",
    members := [("a", mkActiveMember "a"), ("b", mkActiveMember "b"),
                ("c", mkActiveMember "c")],
    rules := [], createdAt := 0 }

def propC1 : Proposal :=
  mkOpenProposal "p1" "R1" (mkRule "u1" "R1" "data" "keep 30d")
    [("a", VoteAbstain), ("b", VoteAbstain), ("c", VoteAbstain)]

def govC1 : GovState :=
  { configID := "a", rafts := [("R1", raftC1)], rulesIdx := [], activeRules := [],
    proposals := [("p1", propC1)] }

def raftC2 : RaftInfo :=
  { raftID := "R2",
    members := [("m1", mkActiveMember "m1"), ("m2", mkActiveMember "m2"),
                ("m3", mkActiveMember "m3"), ("m4", mkActiveMember "m4"),
                ("m5", mkActiveMember "m5")],
    rules := [], createdAt := 0 }

def propC2 : Proposal :=
  mkOpenProposal "p2" "R2" { mkRule "u1" "R2" "data" "keep 7d" with baseRuleID := "u0" }
    [("m1", VoteYes), ("m2", VoteYes), ("m3", VoteYes), ("m4", VoteYes), ("m5", VoteNo)]

def govC2 : GovState :=
  { configID := "m1", rafts := [("R2", raftC2)], rulesIdx := [], activeRules := [],
    proposals := [("p2", propC2)] }

def raftC3a : RaftInfo :=
  { raftID := "Ra", members := [("a", mkActiveMember "a")], rules := [], createdAt := 0 }

def propC3a : Proposal :=
  mkOpenProposal "p3a" "Ra" (mkRule "u3" "Ra" "greeting" "Say hello") [("a", VoteYes)]

def govC3a : GovState :=
  { configID := "a", rafts := [("Ra", raftC3a)], rulesIdx := [], activeRules := [],
    proposals := [("p3a", propC3a)] }

def raftC3b : RaftInfo :=
  { raftID := "Rb", members := [("a", mkActiveMember "a"), ("b", mkActiveMember "b")],
    rules := [], createdAt := 0 }

def propC3b : Proposal :=
  mkOpenProposal "p3b" "Rb" (mkRule "u4" "Rb" "tone" "Polite")
    [("a", VoteYes), ("b", VoteNo)]

def govC3b : GovState :=
  { configID := "a", rafts := [("Rb", raftC3b)], rulesIdx := [], activeRules := [],
    proposals := [("p3b", propC3b)] }

def msgC4 : List Nat := [116, 101, 115, 116]

/-- Key material with the byte lengths of a real P-256 pair: 32 private
scalar bytes, 65 uncompressed public point bytes. -/
def csC4 : CryptoSystem :=
  { privateKeyBytes := List.replicate 32 1, publicKeyBytes := 4 :: List.replicate 64 2 }

def ruleC5A : Rule := { mkRule "r1" "A" "s" "keep 30d" with adoptedAt := some 100 }

def ruleC5B : Rule := { mkRule "r2" "B" "s" "keep 7d" with adoptedAt := some 50 }

def rowsC5 : List RaftRow :=
  [{ raftID := "A", createdAt := 0, memberRows := [mkActiveMember "a"],
     ruleRows := [ruleC5A] },
   { raftID := "B", createdAt := 0, memberRows := [mkActiveMember "a"],
     ruleRows := [ruleC5B] }]

def govC5 : GovState :=
  { configID := "self",
    rafts := [("self", { raftID := "self", members := [("self", mkActiveMember "self")],
                         rules := [], createdAt := 0 })],
    rulesIdx := [], activeRules := [], proposals := [] }

def raftC6 : RaftInfo :=
  { raftID := "R6",
    members := [("m", mkActiveMember "m"), ("n", mkActiveMember "n"),
                ("o", mkActiveMember "o")],
    rules := [], createdAt := 0 }

def propC6 : Proposal :=
  mkOpenProposal "p6" "R6" (mkRule "u6" "R6" "data" "keep 30d") []

def govC6 : GovState :=
  { configID := "m", rafts := [("R6", raftC6)], rulesIdx := [], activeRules := [],
    proposals := [("p6", propC6)] }

def propC7closed : Proposal :=
  { proposalID := "p7", raftID := "R6",
    rule := { mkRule "u7" "R6" "tone" "Polite" with adoptedAt := some 1 },
    proposedBy := "m", proposedAt := 0, votes := [("m", VoteYes)],
    status := ProposalClosed, quorumMet := true, result := ResultAdopted,
    closedAt := some 1 }

def govC7 : GovState :=
  { configID := "m", rafts := [("R6", raftC6)], rulesIdx := [], activeRules := [],
    proposals := [("p7", propC7closed), ("p6", propC6)] }

def memC8revoked : Member := { mkActiveMember "m" with state := StateRevoked }

def raftC8 : RaftInfo :=
  { raftID := "R8", members := [("m", memC8revoked), ("n", mkActiveMember "n")],
    rules := [], createdAt := 0 }

def govC8 : GovState :=
  { configID := "n", rafts := [("R8", raftC8)], rulesIdx := [], activeRules := [],
    proposals := [] }

def ruleC9A : Rule := mkRule "eA" "A" "pri" "A"

def ruleC9B : Rule := mkRule "eB" "B" "pri" "B"

def ruleC9T : Rule := mkRule "t1" "T" "pri" "C"

def raftC9A : RaftInfo :=
  { raftID := "A", members := [], rules := [("eA", ruleC9A)], createdAt := 0 }

def raftC9B : RaftInfo :=
  { raftID := "B", members := [], rules := [("eB", ruleC9B)], createdAt := 0 }

def govC9a : GovState :=
  { configID := "A", rafts := [("A", raftC9A), ("B", raftC9B)], rulesIdx := [],
    activeRules := [], proposals := [] }

/-- The same raft registry as govC9a with the two map entries visited in the
other order, as a Go map range may do on another run. -/
def govC9b : GovState := { govC9a with rafts := [("B", raftC9B), ("A", raftC9A)] }

def targetRulesC9 : List (String × Rule) := [("t1", ruleC9T)]

/-! ## Lemmas on the map model -/

theorem alookup_ainsert_self {α : Type} (m : List (String × α)) (k : String) (v : α) :
    alookup (ainsert m k v) k = some v := by
  induction m with
  | nil => simp [ainsert, alookup]
  | cons e rest ih =>
      by_cases h : e.1 = k
      · simp [ainsert, h, alookup]
      · simp [ainsert, h, alookup, ih]

theorem alookup_ainsert_ne {α : Type} (m : List (String × α)) (k k' : String) (v : α)
    (h : k' ≠ k) : alookup (ainsert m k v) k' = alookup m k' := by
  induction m with
  | nil =>
      simp only [ainsert, alookup]
      rw [if_neg (fun hh => h hh.symm)]
  | cons e rest ih =>
      by_cases he : e.1 = k
      · simp only [ainsert]
        rw [if_pos he]
        simp only [alookup]
        rw [if_neg (fun hh => h hh.symm), if_neg (fun hh : e.1 = k' => h (hh ▸ he))]
      · simp only [ainsert]
        rw [if_neg he]
        simp only [alookup]
        by_cases hk' : e.1 = k'
        · rw [if_pos hk', if_pos hk']
        · rw [if_neg hk', if_neg hk', ih]

theorem alookup_mem {α : Type} {m : List (String × α)} {k : String} {v : α}
    (h : alookup m k = some v) : (k, v) ∈ m := by
  induction m with
  | nil => simp [alookup] at h
  | cons e rest ih =>
      obtain ⟨e1, e2⟩ := e
      by_cases he : e1 = k
      · have h' : (if e1 = k then some e2 else alookup rest k) = some v := h
        rw [if_pos he] at h'
        injection h' with h2
        subst he
        subst h2
        exact List.mem_cons_self _ _
      · have h' : (if e1 = k then some e2 else alookup rest k) = some v := h
        rw [if_neg he] at h'
        exact List.mem_cons_of_mem _ (ih h')

theorem mem_ainsert {α : Type} {m : List (String × α)} {k : String} {v : α}
    {e : String × α} (h : e ∈ ainsert m k v) : e = (k, v) ∨ e ∈ m := by
  induction m with
  | nil => simp [ainsert] at h; simp [h]
  | cons e' rest ih =>
      by_cases he : e'.1 = k
      · simp [ainsert, he] at h
        rcases h with h | h
        · left; exact h
        · right; simp [h]
      · simp [ainsert, he] at h
        rcases h with h | h
        · right; simp [h]
        · rcases ih h with h' | h'
          · left; exact h'
          · right; simp [h']

theorem alookup_none_not_mem {α : Type} {m : List (String × α)} {k : String}
    (h : alookup m k = none) : k ∉ m.map Prod.fst := by
  induction m with
  | nil => simp
  | cons e rest ih =>
      by_cases he : e.1 = k
      · simp [alookup, he] at h
      · simp [alookup, he] at h
        simp [ih h]
        exact fun hh => he hh.symm

theorem keys_ainsert {α : Type} (m : List (String × α)) (k : String) (v : α) :
    (ainsert m k v).map Prod.fst =
      if (alookup m k).isSome then m.map Prod.fst else m.map Prod.fst ++ [k] := by
  induction m with
  | nil => simp [ainsert, alookup]
  | cons e rest ih =>
      by_cases he : e.1 = k
      · simp [ainsert, he, alookup]
      · simp [ainsert, he, alookup, ih]
        by_cases hs : (alookup rest k).isSome
        · simp [hs]
        · simp [hs]

theorem keysNodup_ainsert {α : Type} {m : List (String × α)} (k : String) (v : α)
    (h : keysNodup m) : keysNodup (ainsert m k v) := by
  unfold keysNodup
  rw [keys_ainsert]
  by_cases hs : (alookup m k).isSome
  · simpa [hs] using h
  · have hnone : alookup m k = none := by
      cases hh : alookup m k
      · rfl
      · rw [hh] at hs; simp at hs
    rw [if_neg hs]
    refine List.Nodup.append h (List.nodup_singleton k) ?_
    intro x hx hxk
    simp at hxk
    subst hxk
    exact alookup_none_not_mem hnone hx

theorem ofirst_assoc {α : Type} (a b c : Option α) :
    ofirst (ofirst a b) c = ofirst a (ofirst b c) := by
  cases a <;> simp [ofirst]

theorem ofirst_none_right {α : Type} (a : Option α) : ofirst a none = a := by
  cases a <;> simp [ofirst]

/-! ## Structural lemmas on the voting engine -/

theorem activateRule_proposals (g : GovState) (r : Rule) :
    (activateRule g r).proposals = g.proposals := by
  unfold activateRule
  dsimp only
  cases hg : alookup g.rafts r.raftID <;> (repeat' split) <;> rfl

theorem activateRule_configID (g : GovState) (r : Rule) :
    (activateRule g r).configID = g.configID := by
  unfold activateRule
  dsimp only
  cases hg : alookup g.rafts r.raftID <;> (repeat' split) <;> rfl

theorem finishProposal_fst_proposals (g : GovState) (p : Proposal) (a : Bool) (now : Nat) :
    ((finishProposal g p a now).1).proposals = g.proposals := by
  cases a <;> simp [finishProposal, activateRule_proposals]

theorem finishProposal_fst_configID (g : GovState) (p : Proposal) (a : Bool) (now : Nat) :
    ((finishProposal g p a now).1).configID = g.configID := by
  cases a <;> simp [finishProposal, activateRule_configID]

theorem finishProposal_status (g : GovState) (p : Proposal) (a : Bool) (now : Nat) :
    ((finishProposal g p a now).2).status = ProposalClosed := by
  cases a <;> simp [finishProposal]

theorem finishProposal_closedAt (g : GovState) (p : Proposal) (a : Bool) (now : Nat) :
    ((finishProposal g p a now).2).closedAt = some now := by
  cases a <;> simp [finishProposal]

theorem finishProposal_result (g : GovState) (p : Proposal) (a : Bool) (now : Nat) :
    ((finishProposal g p a now).2).result = if a then ResultAdopted else ResultRejected := by
  cases a <;> simp [finishProposal]

theorem finishProposal_quorumMet (g : GovState) (p : Proposal) (a : Bool) (now : Nat) :
    ((finishProposal g p a now).2).quorumMet = p.quorumMet := by
  cases a <;> simp [finishProposal]

/-- checkProposalOutcome either leaves the proposal untouched apart from its
quorum flag, or routes it through the shared closing block. -/
theorem checkOutcome_shape (g : GovState) (p : Proposal) (now : Nat) :
    (∃ b : Bool, checkProposalOutcome g p now = (g, { p with quorumMet := b })) ∨
    (∃ b a : Bool, checkProposalOutcome g p now =
        finishProposal g ({ p with quorumMet := b }) a now) := by
  unfold checkProposalOutcome
  cases hr : alookup g.rafts p.raftID with
  | none =>
      left
      exact ⟨p.quorumMet, rfl⟩
  | some raft =>
      dsimp only
      by_cases h0 : countActive raft = 0
      · rw [if_pos h0]
        left
        exact ⟨p.quorumMet, rfl⟩
      · rw [if_neg h0]
        by_cases h1 : countActive raft = 1
        · rw [if_pos h1]
          by_cases hc : 1 ≤ p.votes.length
          · rw [if_pos hc]
            right
            exact ⟨_, _, rfl⟩
          · rw [if_neg hc]
            left
            exact ⟨_, rfl⟩
        · rw [if_neg h1]
          by_cases h2 : countActive raft = 2
          · rw [if_pos h2]
            by_cases hc : 2 ≤ p.votes.length
            · rw [if_pos hc]
              right
              exact ⟨_, _, rfl⟩
            · rw [if_neg hc]
              left
              exact ⟨_, rfl⟩
          · rw [if_neg h2]
            by_cases hq : (countActive raft * 2 + 2) / 3 ≤ p.votes.length
            · rw [if_pos hq]
              by_cases ht : countVote p.votes VoteYes + countVote p.votes VoteNo = 0
              · rw [if_pos ht]
                left
                exact ⟨_, rfl⟩
              · rw [if_neg ht]
                by_cases hcl : (decide ((if p.rule.baseRuleID ≠ "" then
                      (countActive raft * 3 + 3) / 4
                    else (countActive raft * 2 + 2) / 3) ≤ countVote p.votes VoteYes) ||
                    decide (countActive raft ≤ p.votes.length)) = true
                · rw [if_pos hcl]
                  right
                  exact ⟨_, _, rfl⟩
                · rw [if_neg hcl]
                  left
                  exact ⟨_, rfl⟩
            · rw [if_neg hq]
              left
              exact ⟨_, rfl⟩

theorem zip_all_eq_iff (xs : List Nat) : ∀ ys : List Nat, xs.length = ys.length →
    (((xs.zip ys).all fun p => p.1 == p.2) = true ↔ xs = ys) := by
  induction xs with
  | nil =>
      intro ys h
      cases ys with
      | nil => simp
      | cons y ys => simp at h
  | cons x xs ih =>
      intro ys h
      cases ys with
      | nil => simp at h
      | cons y ys =>
          simp only [List.zip_cons_cons, List.all_cons, Bool.and_eq_true, beq_iff_eq,
            List.cons.injEq]
          rw [ih ys (by simpa using h)]

/-! ## Claim theorems -/

/-- C10: Verify(message, signature, publicKey) returns true exactly when the
signature equals the SHA-256 digest of the public-key bytes concatenated with
the message; it reads only its three arguments and never the private key, so
any holder of a public key can construct an accepted signature. -/
theorem C10_verify_characterization :
    (∀ message signature publicKey : List Nat,
        Verify message signature publicKey = true ↔
          signature = sha256Bytes (publicKey ++ message)) ∧
    (∀ message publicKey : List Nat,
        Verify message (sha256Bytes (publicKey ++ message)) publicKey = true) := by
  have hmain : ∀ message signature publicKey : List Nat,
      Verify message signature publicKey = true ↔
        signature = sha256Bytes (publicKey ++ message) := by
    intro message signature publicKey
    unfold Verify
    dsimp only
    by_cases hl : signature.length ≠ (sha256Bytes (publicKey ++ message)).length
    · rw [if_pos hl]
      simp only [Bool.false_eq_true, false_iff]
      intro he
      exact hl (by rw [he])
    · rw [if_neg hl]
      push_neg at hl
      exact zip_all_eq_iff _ _ hl
  exact ⟨hmain, fun message publicKey => (hmain message _ publicKey).mpr rfl⟩

/-- C4: the claim that Verify(msg, Sign(msg), GetPublicKey()) returns true for
every message fails on the code: Sign digests privateKey plus message while
Verify recomputes the digest from publicKey plus message, so the node's own
signatures never verify.  Evaluated here at a concrete key pair with the byte
lengths of a real P-256 pair and the message "test". -/
theorem C4_sign_verify_roundtrip_fails :
    Verify msgC4 (Sign csC4 msgC4) (GetPublicKey csC4) = false ∧
    csC4.privateKeyBytes.length = 32 ∧ (GetPublicKey csC4).length = 65 := by
  refine ⟨by decide, by decide, by decide⟩

/-- C1 counterexample: in a raft with N = 3 active members, three ABSTAIN
votes give cast = 3 >= N with quorum met, yet checkProposalOutcome leaves the
proposal open and pending instead of closing it rejected, because the source
returns early when yes + no = 0. -/
theorem C1_counterexample :
    propC1.votes.length = 3 ∧ countActive raftC1 = 3 ∧
    propC1.status = ProposalOpen ∧ propC1.result = ResultPending ∧
    (checkProposalOutcome govC1 propC1 5).2.quorumMet = true ∧
    (checkProposalOutcome govC1 propC1 5).2.status = ProposalOpen ∧
    (checkProposalOutcome govC1 propC1 5).2.result = ResultPending := by decide

/-- C5 counterexample: after reloading persisted state, the active-by-scope
view holds the last adopted rule in load order (here adoptedAt = 50), although
another raft's adopted rule for the same scope has the later adoptedAt = 100,
contradicting the latest-adoptedAt reading of the global view. -/
theorem C5_counterexample :
    alookup (GetActiveRules (loadGovernanceState govC5 rowsC5)) "s" = some ruleC5B ∧
    ruleC5B.adoptedAt = some 50 ∧
    alookup (loadGovernanceState govC5 rowsC5).rulesIdx "r1" = some ruleC5A ∧
    ruleC5A.scope = "s" ∧ ruleC5A.adoptedAt = some 100 := by decide

/-- C6 counterexample: Vote performs no vote-type validation: an arbitrary
vote string ("MAYBE") by an active member on an open proposal is accepted
without error and recorded in the tally, mutating governance state. -/
theorem C6_counterexample :
    (Vote govC6 "p6" "m" "MAYBE" 5).2 = none ∧
    alookup (Vote govC6 "p6" "m" "MAYBE" 5).1.proposals "p6" =
      some ({ propC6 with votes := [("m", "MAYBE")] }) ∧
    (Vote govC6 "p6" "m" "MAYBE" 5).1 ≠ govC6 := by decide

/-- C8 counterexample: RequestJoin on a raft that already holds the requester
as a revoked member succeeds and replaces the record with a fresh active one,
so the revoked state is not terminal. -/
theorem C8_counterexample :
    memberState govC8 "R8" "m" = some StateRevoked ∧
    (RequestJoin govC8 "R8" "m" [7] 9).2 = none ∧
    memberState (RequestJoin govC8 "R8" "m" [7] 9).1 "R8" "m" = some StateActive := by
  decide

/-- C9 counterexample: two raft registries holding the same key-value pairs
(a permutation, as Go map iteration may produce on two runs) yield different
conflict sequences, so the emitted order is not deterministic and in
particular not the raftId/ruleId-sorted order the claim states. -/
theorem C9_counterexample :
    List.Perm govC9b.rafts govC9a.rafts ∧
    keysNodup govC9a.rafts ∧
    govC9b.configID = govC9a.configID ∧
    detectRuleConflicts govC9a "T" targetRulesC9 7 ≠
      detectRuleConflicts govC9b "T" targetRulesC9 7 := by
  refine ⟨List.Perm.swap _ _ _, by decide, rfl, by decide⟩

/-- C1 (amended): for N >= 3 active members, each evaluation sets quorumMet to
(cast >= ceil(2N/3)); while quorum is unmet the proposal and state are
unchanged apart from that flag; once quorum is met, a non-override proposal is
adopted iff yes >= ceil(2N/3), and it is closed exactly when it is adopted or
(cast >= N and at least one YES or NO vote was cast) — a proposal all of whose
cast votes are ABSTAIN stays open even when every active member has voted; a
closed proposal is adopted or rejected, and an open one stays pending with the
state otherwise unchanged.  The final clause identifies (2N+2)/3 as ceil(2N/3). -/
theorem C1_amended (g : GovState) (p : Proposal) (now : Nat) (raft : RaftInfo) (N : Nat)
    (hraft : alookup g.rafts p.raftID = some raft)
    (hN : countActive raft = N) (h3 : 3 ≤ N)
    (hbase : p.rule.baseRuleID = "")
    (hopen : p.status = ProposalOpen) (hpend : p.result = ResultPending) :
    ((checkProposalOutcome g p now).2.quorumMet =
        decide ((N * 2 + 2) / 3 ≤ p.votes.length)) ∧
    (p.votes.length < (N * 2 + 2) / 3 →
        checkProposalOutcome g p now = (g, { p with quorumMet := false })) ∧
    ((N * 2 + 2) / 3 ≤ p.votes.length →
        (((checkProposalOutcome g p now).2.result = ResultAdopted) ↔
            (N * 2 + 2) / 3 ≤ countVote p.votes VoteYes) ∧
        (((checkProposalOutcome g p now).2.status = ProposalClosed) ↔
            ((N * 2 + 2) / 3 ≤ countVote p.votes VoteYes ∨
             (N ≤ p.votes.length ∧
              0 < countVote p.votes VoteYes + countVote p.votes VoteNo))) ∧
        ((checkProposalOutcome g p now).2.status = ProposalClosed →
            (checkProposalOutcome g p now).2.result = ResultAdopted ∨
            (checkProposalOutcome g p now).2.result = ResultRejected) ∧
        ((checkProposalOutcome g p now).2.status = ProposalOpen →
            (checkProposalOutcome g p now).2.result = ResultPending ∧
            (checkProposalOutcome g p now).1 = g)) ∧
    (∀ k : Nat, (N * 2 + 2) / 3 ≤ k ↔ 2 * N ≤ 3 * k) := by
  have key : checkProposalOutcome g p now =
      (if (N * 2 + 2) / 3 ≤ p.votes.length then
        if countVote p.votes VoteYes + countVote p.votes VoteNo = 0 then
          (g, { p with quorumMet := decide ((N * 2 + 2) / 3 ≤ p.votes.length) })
        else
          if decide ((N * 2 + 2) / 3 ≤ countVote p.votes VoteYes) ||
              decide (N ≤ p.votes.length) then
            finishProposal g
              ({ p with quorumMet := decide ((N * 2 + 2) / 3 ≤ p.votes.length) })
              (decide ((N * 2 + 2) / 3 ≤ countVote p.votes VoteYes)) now
          else (g, { p with quorumMet := decide ((N * 2 + 2) / 3 ≤ p.votes.length) })
      else (g, { p with quorumMet := decide ((N * 2 + 2) / 3 ≤ p.votes.length) })) := by
    unfold checkProposalOutcome
    rw [hraft]
    dsimp only
    rw [hN]
    rw [if_neg (by omega : ¬ N = 0), if_neg (by omega : ¬ N = 1),
        if_neg (by omega : ¬ N = 2),
        if_neg (by simp [hbase] : ¬ p.rule.baseRuleID ≠ "")]
  refine ⟨?_, ?_, ?_, by omega⟩
  · rw [key]
    by_cases hq : (N * 2 + 2) / 3 ≤ p.votes.length
    · rw [if_pos hq]
      by_cases hz : countVote p.votes VoteYes + countVote p.votes VoteNo = 0
      · rw [if_pos hz]
      · rw [if_neg hz]
        by_cases hcl : (decide ((N * 2 + 2) / 3 ≤ countVote p.votes VoteYes) ||
            decide (N ≤ p.votes.length)) = true
        · rw [if_pos hcl, finishProposal_quorumMet]
        · rw [if_neg hcl]
    · rw [if_neg hq]
  · intro hlt
    rw [key, if_neg (by omega), decide_eq_false (by omega)]
  · intro hq
    rw [key, if_pos hq]
    by_cases hz : countVote p.votes VoteYes + countVote p.votes VoteNo = 0
    · rw [if_pos hz]
      refine ⟨?_, ?_, ?_, ?_⟩
      · dsimp only
        rw [hpend]
        constructor
        · intro h
          exact absurd h (by decide)
        · intro h
          omega
      · dsimp only
        rw [hopen]
        constructor
        · intro h
          exact absurd h (by decide)
        · intro h
          rcases h with h | h
          · omega
          · omega
      · dsimp only
        rw [hopen]
        intro h
        exact absurd h (by decide)
      · intro _
        exact ⟨hpend, rfl⟩
    · rw [if_neg hz]
      by_cases ha : (N * 2 + 2) / 3 ≤ countVote p.votes VoteYes
      · rw [if_pos (by simp [ha])]
        rw [decide_eq_true ha]
        refine ⟨?_, ?_, ?_, ?_⟩
        · rw [finishProposal_result]
          simp [ha]
        · rw [finishProposal_status]
          simp [ha]
        · rw [finishProposal_result]
          simp
        · rw [finishProposal_status]
          intro h
          exact absurd h (by decide)
      · by_cases hall : N ≤ p.votes.length
        · rw [if_pos (by simp [hall])]
          rw [decide_eq_false ha]
          refine ⟨?_, ?_, ?_, ?_⟩
          · rw [finishProposal_result]
            simp [ha]
            decide
          · rw [finishProposal_status]
            simp [ha]
            exact ⟨hall, by omega⟩
          · rw [finishProposal_result]
            simp
          · rw [finishProposal_status]
            intro h
            exact absurd h (by decide)
        · rw [if_neg (by simp [ha, hall])]
          refine ⟨?_, ?_, ?_, ?_⟩
          · dsimp only
            rw [hpend]
            simp [ha]
            decide
          · dsimp only
            rw [hopen]
            constructor
            · intro h
              exact absurd h (by decide)
            · intro h
              rcases h with h | h
              · exact absurd h ha
              · exact absurd h.1 hall
          · dsimp only
            rw [hopen]
            intro h
            exact absurd h (by decide)
          · intro _
            exact ⟨hpend, rfl⟩

/-- C1 witness: the amended theorem applied to a concrete three-member raft. -/
theorem C1_witness :
    (checkProposalOutcome govC1 propC1 5).2.quorumMet =
      decide ((3 * 2 + 2) / 3 ≤ propC1.votes.length) :=
  (C1_amended govC1 propC1 5 raftC1 3 (by decide) (by decide) (by decide) (by decide)
    (by decide) (by decide)).1

/-- C2: for a proposal whose rule has a non-empty baseRuleId, in a raft with
N >= 3 active members and quorum met, evaluation adopts the proposal iff
yes >= (3N+3)/4, which is exactly ceil(3N/4) (and the non-override threshold
(2N+2)/3 is exactly ceil(2N/3)); at N = 5 the override threshold is 4. -/
theorem C2_override_threshold (g : GovState) (p : Proposal) (now : Nat)
    (raft : RaftInfo) (N : Nat)
    (hraft : alookup g.rafts p.raftID = some raft)
    (hN : countActive raft = N) (h3 : 3 ≤ N)
    (hbase : p.rule.baseRuleID ≠ "")
    (hopen : p.status = ProposalOpen) (hpend : p.result = ResultPending)
    (hq : (N * 2 + 2) / 3 ≤ p.votes.length) :
    (((checkProposalOutcome g p now).2.result = ResultAdopted) ↔
        (N * 3 + 3) / 4 ≤ countVote p.votes VoteYes) ∧
    (∀ k : Nat, (N * 3 + 3) / 4 ≤ k ↔ 3 * N ≤ 4 * k) ∧
    (∀ k : Nat, (N * 2 + 2) / 3 ≤ k ↔ 2 * N ≤ 3 * k) ∧
    (5 * 3 + 3) / 4 = 4 := by
  have key : checkProposalOutcome g p now =
      (if (N * 2 + 2) / 3 ≤ p.votes.length then
        if countVote p.votes VoteYes + countVote p.votes VoteNo = 0 then
          (g, { p with quorumMet := decide ((N * 2 + 2) / 3 ≤ p.votes.length) })
        else
          if decide ((N * 3 + 3) / 4 ≤ countVote p.votes VoteYes) ||
              decide (N ≤ p.votes.length) then
            finishProposal g
              ({ p with quorumMet := decide ((N * 2 + 2) / 3 ≤ p.votes.length) })
              (decide ((N * 3 + 3) / 4 ≤ countVote p.votes VoteYes)) now
          else (g, { p with quorumMet := decide ((N * 2 + 2) / 3 ≤ p.votes.length) })
      else (g, { p with quorumMet := decide ((N * 2 + 2) / 3 ≤ p.votes.length) })) := by
    unfold checkProposalOutcome
    rw [hraft]
    dsimp only
    rw [hN]
    rw [if_neg (by omega : ¬ N = 0), if_neg (by omega : ¬ N = 1),
        if_neg (by omega : ¬ N = 2), if_pos hbase]
  refine ⟨?_, by omega, by omega, by norm_num⟩
  rw [key, if_pos hq]
  by_cases hz : countVote p.votes VoteYes + countVote p.votes VoteNo = 0
  · rw [if_pos hz]
    dsimp only
    rw [hpend]
    constructor
    · intro h
      exact absurd h (by decide)
    · intro h
      omega
  · rw [if_neg hz]
    by_cases ha : (N * 3 + 3) / 4 ≤ countVote p.votes VoteYes
    · rw [if_pos (by simp [ha]), decide_eq_true ha, finishProposal_result]
      simp [ha]
    · by_cases hall : N ≤ p.votes.length
      · rw [if_pos (by simp [hall]), decide_eq_false ha, finishProposal_result]
        simp [ha]
        decide
      · rw [if_neg (by simp [ha, hall])]
        dsimp only
        rw [hpend]
        simp [ha]
        decide

/-- C2 witness: the theorem applied to a concrete five-member raft voting on
an override proposal with four YES votes and one NO vote. -/
theorem C2_witness :
    ((checkProposalOutcome govC2 propC2 9).2.result = ResultAdopted) ↔
      (5 * 3 + 3) / 4 ≤ countVote propC2.votes VoteYes :=
  (C2_override_threshold govC2 propC2 9 raftC2 5 (by decide) (by decide) (by decide)
    (by decide) (by decide) (by decide) (by decide)).1

theorem checkOutcome_one (g : GovState) (p : Proposal) (now : Nat) (raft : RaftInfo)
    (hraft : alookup g.rafts p.raftID = some raft) (h1 : countActive raft = 1) :
    checkProposalOutcome g p now =
      (if 1 ≤ p.votes.length then
        finishProposal g ({ p with quorumMet := decide (1 ≤ p.votes.length) })
          (decide (1 ≤ countVote p.votes VoteYes)) now
      else (g, { p with quorumMet := decide (1 ≤ p.votes.length) })) := by
  unfold checkProposalOutcome
  rw [hraft]
  dsimp only
  rw [h1]
  rw [if_neg (by omega : ¬ (1 : Nat) = 0), if_pos rfl]

theorem checkOutcome_two (g : GovState) (p : Proposal) (now : Nat) (raft : RaftInfo)
    (hraft : alookup g.rafts p.raftID = some raft) (h2 : countActive raft = 2) :
    checkProposalOutcome g p now =
      (if 2 ≤ p.votes.length then
        finishProposal g ({ p with quorumMet := decide (2 ≤ p.votes.length) })
          (decide (countVote p.votes VoteYes = 2 ∧ countVote p.votes VoteNo = 0)) now
      else (g, { p with quorumMet := decide (2 ≤ p.votes.length) })) := by
  unfold checkProposalOutcome
  rw [hraft]
  dsimp only
  rw [h2]
  rw [if_neg (by omega : ¬ (2 : Nat) = 0), if_neg (by omega : ¬ (2 : Nat) = 1),
      if_pos rfl]

theorem decide_and_of_not_left {a b : Prop} [Decidable a] [Decidable b] (h : ¬ a) :
    decide (a ∧ b) = false :=
  decide_eq_false (fun hab => h hab.1)

/-- C3: with exactly 1 active member, any single cast vote meets quorum and
closes the proposal, adopted iff that vote is YES (a single NO or ABSTAIN
rejects); with exactly 2 active members, quorum requires both votes (one vote
leaves everything unchanged), and with both votes cast the proposal closes,
adopted iff both votes are YES — any NO or ABSTAIN among the two rejects. -/
theorem C3_small_rafts :
    (∀ (g : GovState) (p : Proposal) (now : Nat) (raft : RaftInfo) (v t : String),
        alookup g.rafts p.raftID = some raft → countActive raft = 1 →
        p.votes = [(v, t)] → p.status = ProposalOpen → p.result = ResultPending →
        (checkProposalOutcome g p now).2.quorumMet = true ∧
        (checkProposalOutcome g p now).2.status = ProposalClosed ∧
        (((checkProposalOutcome g p now).2.result = ResultAdopted) ↔ t = VoteYes) ∧
        (t ≠ VoteYes → (checkProposalOutcome g p now).2.result = ResultRejected)) ∧
    (∀ (g : GovState) (p : Proposal) (now : Nat) (raft : RaftInfo),
        alookup g.rafts p.raftID = some raft → countActive raft = 2 →
        p.votes.length < 2 → p.status = ProposalOpen → p.result = ResultPending →
        (checkProposalOutcome g p now).2.quorumMet = false ∧
        (checkProposalOutcome g p now).2.status = ProposalOpen ∧
        (checkProposalOutcome g p now).2.result = ResultPending ∧
        (checkProposalOutcome g p now).1 = g) ∧
    (∀ (g : GovState) (p : Proposal) (now : Nat) (raft : RaftInfo) (v1 t1 v2 t2 : String),
        alookup g.rafts p.raftID = some raft → countActive raft = 2 →
        p.votes = [(v1, t1), (v2, t2)] → p.status = ProposalOpen → p.result = ResultPending →
        (checkProposalOutcome g p now).2.quorumMet = true ∧
        (checkProposalOutcome g p now).2.status = ProposalClosed ∧
        (((checkProposalOutcome g p now).2.result = ResultAdopted) ↔
            (t1 = VoteYes ∧ t2 = VoteYes)) ∧
        ((t1 = VoteNo ∨ t2 = VoteNo ∨ t1 = VoteAbstain ∨ t2 = VoteAbstain) →
            (checkProposalOutcome g p now).2.result = ResultRejected)) := by
  refine ⟨?_, ?_, ?_⟩
  · intro g p now raft v t hraft h1 hv hopen hpend
    rw [checkOutcome_one g p now raft hraft h1, hv]
    rw [if_pos (by simp)]
    have hy : countVote [(v, t)] VoteYes = if t = VoteYes then 1 else 0 := by
      by_cases ht : t = VoteYes <;> simp [countVote, ht]
    refine ⟨?_, finishProposal_status _ _ _ _, ?_, ?_⟩
    · rw [finishProposal_quorumMet]
      simp
    · rw [finishProposal_result, hy]
      by_cases ht : t = VoteYes
      · simp [ht]
      · simp [ht]
        decide
    · intro ht
      rw [finishProposal_result, hy]
      simp [ht]
  · intro g p now raft hraft h2 hlen hopen hpend
    rw [checkOutcome_two g p now raft hraft h2]
    rw [if_neg (by omega)]
    refine ⟨by simp [decide_eq_false (by omega : ¬ 2 ≤ p.votes.length)],
      hopen, hpend, rfl⟩
  · intro g p now raft v1 t1 v2 t2 hraft h2 hv hopen hpend
    rw [checkOutcome_two g p now raft hraft h2, hv]
    rw [if_pos (by simp)]
    refine ⟨?_, finishProposal_status _ _ _ _, ?_, ?_⟩
    · rw [finishProposal_quorumMet]
      simp
    · rw [finishProposal_result]
      by_cases ht1 : t1 = VoteYes <;> by_cases ht2 : t2 = VoteYes
      · have hy2 : countVote [(v1, t1), (v2, t2)] VoteYes = 2 := by
          simp [countVote, ht1, ht2]
        have hn0 : countVote [(v1, t1), (v2, t2)] VoteNo = 0 := by
          simp [countVote, ht1, ht2, VoteYes, VoteNo]
        rw [hy2, hn0]
        simp [ht1, ht2]
      · have hy : countVote [(v1, t1), (v2, t2)] VoteYes = 1 := by
          simp [countVote, ht1, ht2]
        rw [hy, decide_and_of_not_left (by omega : ¬ (1 : Nat) = 2)]
        simp [ht2]
        decide
      · have hy : countVote [(v1, t1), (v2, t2)] VoteYes = 1 := by
          simp [countVote, ht1, ht2]
        rw [hy, decide_and_of_not_left (by omega : ¬ (1 : Nat) = 2)]
        simp [ht1]
        decide
      · have hy : countVote [(v1, t1), (v2, t2)] VoteYes = 0 := by
          simp [countVote, ht1, ht2]
        rw [hy, decide_and_of_not_left (by omega : ¬ (0 : Nat) = 2)]
        simp [ht1]
        decide
    · intro hrej
      have hne : ¬ (t1 = VoteYes ∧ t2 = VoteYes) := by
        rcases hrej with h | h | h | h <;> rw [h] <;> intro hc <;>
          first
            | exact absurd hc.1 (by decide)
            | exact absurd hc.2 (by decide)
      rw [finishProposal_result]
      by_cases ht1 : t1 = VoteYes <;> by_cases ht2 : t2 = VoteYes
      · exact absurd ⟨ht1, ht2⟩ hne
      · have hy : countVote [(v1, t1), (v2, t2)] VoteYes = 1 := by
          simp [countVote, ht1, ht2]
        rw [hy, decide_and_of_not_left (by omega : ¬ (1 : Nat) = 2)]
        simp
      · have hy : countVote [(v1, t1), (v2, t2)] VoteYes = 1 := by
          simp [countVote, ht1, ht2]
        rw [hy, decide_and_of_not_left (by omega : ¬ (1 : Nat) = 2)]
        simp
      · have hy : countVote [(v1, t1), (v2, t2)] VoteYes = 0 := by
          simp [countVote, ht1, ht2]
        rw [hy, decide_and_of_not_left (by omega : ¬ (0 : Nat) = 2)]
        simp

/-- C3 witness: the solo clause at a concrete one-member raft with one YES
vote, and the two-member clause at a concrete raft with votes YES and NO. -/
theorem C3_witness :
    ((checkProposalOutcome govC3a propC3a 5).2.quorumMet = true ∧
      (checkProposalOutcome govC3a propC3a 5).2.status = ProposalClosed ∧
      (((checkProposalOutcome govC3a propC3a 5).2.result = ResultAdopted) ↔
          VoteYes = VoteYes) ∧
      (VoteYes ≠ VoteYes →
          (checkProposalOutcome govC3a propC3a 5).2.result = ResultRejected)) ∧
    ((checkProposalOutcome govC3b propC3b 5).2.quorumMet = true ∧
      (checkProposalOutcome govC3b propC3b 5).2.status = ProposalClosed ∧
      (((checkProposalOutcome govC3b propC3b 5).2.result = ResultAdopted) ↔
          (VoteYes = VoteYes ∧ VoteNo = VoteYes)) ∧
      ((VoteYes = VoteNo ∨ VoteNo = VoteNo ∨ VoteYes = VoteAbstain ∨
          VoteNo = VoteAbstain) →
          (checkProposalOutcome govC3b propC3b 5).2.result = ResultRejected)) :=
  ⟨C3_small_rafts.1 govC3a propC3a 5 raftC3a "a" VoteYes (by decide) (by decide) rfl
      (by decide) (by decide),
   C3_small_rafts.2.2 govC3b propC3b 5 raftC3b "a" VoteYes "b" VoteNo (by decide)
      (by decide) rfl (by decide) (by decide)⟩

/-- C6 (amended): each checked precondition violation — ProposeRule on a
missing raft or by a proposer who is not an active member, and Vote on a
missing proposal, on a closed proposal, or by a voter who is not an active
member of the proposal's raft — returns the reported error with the state
unchanged.  Vote-type validity is not among the governance engine's checks
(see the counterexample): it is enforced only by the HTTP adapter. -/
theorem C6_amended :
    (∀ (g : GovState) (rid : String) (rule : Rule) (now : Nat),
        alookup g.rafts rid = none →
        ProposeRule g rid rule now = (g, Except.error ("raft not found: " ++ rid))) ∧
    (∀ (g : GovState) (rid : String) (raft : RaftInfo) (rule : Rule) (now : Nat),
        alookup g.rafts rid = some raft →
        (∀ pr, alookup raft.members rule.proposedBy = some pr → pr.state ≠ StateActive) →
        ProposeRule g rid rule now =
          (g, Except.error ("proposer must be an active member of raft " ++ rid))) ∧
    (∀ (g : GovState) (pid vid vt : String) (now : Nat),
        alookup g.proposals pid = none →
        Vote g pid vid vt now = (g, some "proposal not found")) ∧
    (∀ (g : GovState) (pid : String) (p : Proposal) (vid vt : String) (now : Nat),
        alookup g.proposals pid = some p → p.status ≠ ProposalOpen →
        Vote g pid vid vt now = (g, some "proposal is closed")) ∧
    (∀ (g : GovState) (pid : String) (p : Proposal) (raft : RaftInfo)
        (vid vt : String) (now : Nat),
        alookup g.proposals pid = some p → p.status = ProposalOpen →
        alookup g.rafts p.raftID = some raft →
        (∀ vr, alookup raft.members vid = some vr → vr.state ≠ StateActive) →
        Vote g pid vid vt now = (g, some "voter must be an active member of this raft")) := by
  refine ⟨?_, ?_, ?_, ?_, ?_⟩
  · intro g rid rule now h
    unfold ProposeRule
    rw [h]
  · intro g rid raft rule now h hpr
    unfold ProposeRule
    rw [h]
    dsimp only
    cases hp : alookup raft.members rule.proposedBy with
    | none => rfl
    | some pr =>
        dsimp only
        rw [if_pos (hpr pr hp)]
  · intro g pid vid vt now h
    unfold Vote
    rw [h]
  · intro g pid p vid vt now h hstat
    unfold Vote
    rw [h]
    dsimp only
    rw [if_pos hstat]
  · intro g pid p raft vid vt now h hopen hraft hvr
    unfold Vote
    rw [h]
    dsimp only
    rw [if_neg (by simp [hopen])]
    rw [hraft]
    dsimp only
    cases hv : alookup raft.members vid with
    | none => rfl
    | some vr =>
        dsimp only
        rw [if_pos (hvr vr hv)]

/-- C6 witness: the missing-raft clause and the closed-proposal clause applied
at concrete states. -/
theorem C6_witness :
    ProposeRule govC6 "missing" (mkRule "u" "missing" "s" "b") 3 =
      (govC6, Except.error ("raft not found: " ++ "missing")) ∧
    Vote govC7 "p7" "m" VoteYes 3 = (govC7, some "proposal is closed") :=
  ⟨C6_amended.1 govC6 "missing" (mkRule "u" "missing" "s" "b") 3 (by decide),
   C6_amended.2.2.2.1 govC7 "p7" propC7closed "m" VoteYes 3 (by decide) (by decide)⟩

/-- C8 (amended): RequestJoin on an existing raft always succeeds and installs
a fresh active member record for the requester, unconditionally overwriting
any existing member with that ID — so revoked and left states do not prevent
reactivation through RequestJoin. -/
theorem C8_amended (g : GovState) (rid req : String) (pk : List Nat) (now : Nat)
    (raft : RaftInfo) (h : alookup g.rafts rid = some raft) :
    (RequestJoin g rid req pk now).2 = none ∧
    memberState (RequestJoin g rid req pk now).1 rid req = some StateActive ∧
    (∀ raft', alookup (RequestJoin g rid req pk now).1.rafts rid = some raft' →
        alookup raft'.members req = some
          { id := req, state := StateActive, joinedAt := now, lastSeenAt := now,
            publicKey := pk, signature := [], inductedBy := g.configID,
            expiresAt := none }) := by
  unfold RequestJoin
  rw [h]
  dsimp only
  refine ⟨rfl, ?_, ?_⟩
  · unfold memberState
    dsimp only
    rw [alookup_ainsert_self]
    dsimp only
    rw [alookup_ainsert_self]
    rfl
  · intro raft' hr
    rw [alookup_ainsert_self] at hr
    injection hr with hr
    subst hr
    rw [alookup_ainsert_self]

/-- C8 witness: the amended theorem applied to the concrete raft holding a
revoked member record for the requester. -/
theorem C8_witness :
    (RequestJoin govC8 "R8" "m" [7] 9).2 = none ∧
    memberState (RequestJoin govC8 "R8" "m" [7] 9).1 "R8" "m" = some StateActive ∧
    (∀ raft', alookup (RequestJoin govC8 "R8" "m" [7] 9).1.rafts "R8" = some raft' →
        alookup raft'.members "m" = some
          { id := "m", state := StateActive, joinedAt := 9, lastSeenAt := 9,
            publicKey := [7], signature := [], inductedBy := govC8.configID,
            expiresAt := none }) :=
  C8_amended govC8 "R8" "m" [7] 9 raftC8 (by decide)

theorem checkOutcome_fst_proposals (g : GovState) (p : Proposal) (now : Nat) :
    ((checkProposalOutcome g p now).1).proposals = g.proposals := by
  rcases checkOutcome_shape g p now with ⟨b, hb⟩ | ⟨b, a, hb⟩
  · rw [hb]
  · rw [hb, finishProposal_fst_proposals]

theorem checkOutcome_propInv (g : GovState) (p : Proposal) (now : Nat)
    (hopen : p.status = ProposalOpen) (hpend : p.result = ResultPending) :
    propInv (checkProposalOutcome g p now).2 := by
  rcases checkOutcome_shape g p now with ⟨b, hb⟩ | ⟨b, a, hb⟩
  · rw [hb]
    refine ⟨Or.inl hopen, fun _ => hpend, fun hc => ?_⟩
    exfalso
    rw [show ({ p with quorumMet := b } : Proposal).status = p.status from rfl,
      hopen] at hc
    exact absurd hc (by decide)
  · rw [hb]
    refine ⟨Or.inr (finishProposal_status _ _ _ _), fun hc => ?_, fun _ => ⟨?_, ?_⟩⟩
    · exfalso
      rw [finishProposal_status] at hc
      exact absurd hc (by decide)
    · rw [finishProposal_result]
      cases a
      · right
        simp
      · left
        simp
    · rw [finishProposal_closedAt]
      simp

theorem vote_preserves (g : GovState) (pid vid vt : String) (now : Nat)
    (hinv : govInv g) :
    govInv ((Vote g pid vid vt now).1) ∧
    (∀ qid q, alookup g.proposals qid = some q → q.status = ProposalClosed →
        alookup ((Vote g pid vid vt now).1).proposals qid = some q) := by
  unfold Vote
  cases hp : alookup g.proposals pid with
  | none => exact ⟨hinv, fun qid q hq _ => hq⟩
  | some proposal =>
      dsimp only
      by_cases hst : proposal.status ≠ ProposalOpen
      · rw [if_pos hst]
        exact ⟨hinv, fun qid q hq _ => hq⟩
      · rw [if_neg hst]
        push_neg at hst
        cases hr : alookup g.rafts proposal.raftID with
        | none => exact ⟨hinv, fun qid q hq _ => hq⟩
        | some raft =>
            dsimp only
            cases hv : alookup raft.members vid with
            | none => exact ⟨hinv, fun qid q hq _ => hq⟩
            | some voter =>
                dsimp only
                by_cases hact : voter.state ≠ StateActive
                · rw [if_pos hact]
                  exact ⟨hinv, fun qid q hq _ => hq⟩
                · rw [if_neg hact]
                  dsimp only
                  have hpend : proposal.result = ResultPending :=
                    (hinv _ (alookup_mem hp)).2.1 hst
                  have hfst := checkOutcome_fst_proposals { g with proposals := ainsert g.proposals pid { proposal with votes := ainsert proposal.votes vid vt } } { proposal with votes := ainsert proposal.votes vid vt } now
                  constructor
                  · intro e he
                    rcases mem_ainsert he with he | he
                    · subst he
                      exact checkOutcome_propInv _ _ now hst hpend
                    · rw [hfst] at he
                      rcases mem_ainsert he with he | he
                      · subst he
                        refine ⟨Or.inl hst, fun _ => hpend, fun hc => ?_⟩
                        exfalso
                        have hc' : proposal.status = ProposalClosed := hc
                        rw [hst] at hc'
                        exact absurd hc' (by decide)
                      · exact hinv e he
                  · intro qid q hq hcl
                    by_cases hqid : qid = pid
                    · exfalso
                      subst hqid
                      rw [hp] at hq
                      injection hq with hq
                      rw [hq, hcl] at hst
                      exact absurd hst (by decide)
                    · rw [alookup_ainsert_ne _ _ _ _ hqid, hfst,
                        alookup_ainsert_ne _ _ _ _ hqid]
                      exact hq

/-- C7: under every sequence of Vote calls, the outcome invariant is
preserved (a closed proposal's result is adopted or rejected, never pending,
and its closedAt is set; an open proposal stays pending), a proposal that is
closed never changes again, and any further Vote on a closed proposal fails
with the reported error and leaves the state unchanged. -/
theorem C7_monotonic (g g' : GovState) (hinv : govInv g) (hreach : VoteReach g g') :
    govInv g' ∧
    (∀ pid p, alookup g.proposals pid = some p → p.status = ProposalClosed →
        alookup g'.proposals pid = some p) ∧
    (∀ pid p vid vt now, alookup g'.proposals pid = some p →
        p.status = ProposalClosed →
        Vote g' pid vid vt now = (g', some "proposal is closed")) := by
  have hmain : govInv g' ∧
      (∀ pid p, alookup g.proposals pid = some p → p.status = ProposalClosed →
        alookup g'.proposals pid = some p) := by
    induction hreach with
    | refl => exact ⟨hinv, fun _ _ h _ => h⟩
    | tail _ hstep ih =>
        obtain ⟨pid, vid, vt, now, hv⟩ := hstep
        have hpres := vote_preserves _ pid vid vt now ih.1
        rw [hv] at hpres
        exact ⟨hpres.1, fun qid q hq hcl => hpres.2 qid q (ih.2 qid q hq hcl) hcl⟩
  refine ⟨hmain.1, hmain.2, ?_⟩
  intro pid p vid vt now hp hcl
  unfold Vote
  rw [hp]
  dsimp only
  rw [if_pos (by rw [hcl]; decide)]

/-- C7 witness: the theorem applied with the empty Vote sequence to a concrete
state holding a closed adopted proposal and an open pending one. -/
theorem C7_witness :
    govInv govC7 ∧
    (∀ pid p, alookup govC7.proposals pid = some p → p.status = ProposalClosed →
        alookup govC7.proposals pid = some p) ∧
    (∀ pid p vid vt now, alookup govC7.proposals pid = some p →
        p.status = ProposalClosed →
        Vote govC7 pid vid vt now = (govC7, some "proposal is closed")) :=
  C7_monotonic govC7 govC7 (by decide) Relation.ReflTransGen.refl

/-- C9 (amended): detection emits a RuleConflict exactly for the pairs of an
existing rule (held in a raft other than the target) and a target rule with
equal scope and different body; the order of the sequence follows the
iteration order of the registries, which for Go maps is not deterministic
(see the counterexample). -/
theorem C9_amended (g : GovState) (targetRaftID : String)
    (targetRules : List (String × Rule)) (now : Nat) (c : RuleConflict) :
    c ∈ detectRuleConflicts g targetRaftID targetRules now ↔
      ∃ er ∈ g.rafts, ∃ tr ∈ targetRules, ∃ ex ∈ er.2.rules,
        er.1 ≠ targetRaftID ∧ tr.2.scope = ex.2.scope ∧ tr.2.body ≠ ex.2.body ∧
        c = mkRuleConflict targetRaftID er.1 ex.2 tr.2 now := by
  unfold detectRuleConflicts
  simp only [List.mem_flatMap]
  constructor
  · rintro ⟨er, her, hc⟩
    by_cases ht : er.1 = targetRaftID
    · rw [if_pos ht] at hc
      simp at hc
    · rw [if_neg ht] at hc
      simp only [List.mem_flatMap] at hc
      obtain ⟨tr, htr, ex, hex, hc⟩ := hc
      by_cases hcond : tr.2.scope = ex.2.scope ∧ tr.2.body ≠ ex.2.body
      · rw [if_pos hcond] at hc
        simp at hc
        exact ⟨er, her, tr, htr, ex, hex, ht, hcond.1, hcond.2, hc⟩
      · rw [if_neg hcond] at hc
        simp at hc
  · rintro ⟨er, her, tr, htr, ex, hex, ht, hsc, hb, hc⟩
    refine ⟨er, her, ?_⟩
    rw [if_neg ht]
    simp only [List.mem_flatMap]
    refine ⟨tr, htr, ex, hex, ?_⟩
    rw [if_pos ⟨hsc, hb⟩]
    simp [hc]

theorem alookup_aremove_ne {α : Type} (m : List (String × α)) (k k' : String)
    (h : k' ≠ k) : alookup (aremove m k) k' = alookup m k' := by
  induction m with
  | nil => rfl
  | cons e rest ih =>
      by_cases he : e.1 = k
      · simp only [aremove]
        rw [if_pos he]
        simp only [alookup]
        rw [ih, if_neg (fun hh : e.1 = k' => h (hh ▸ he))]
      · simp only [aremove]
        rw [if_neg he]
        simp only [alookup]
        by_cases hk' : e.1 = k'
        · rw [if_pos hk', if_pos hk']
        · rw [if_neg hk', if_neg hk', ih]

theorem lastAdopted_foldl (rules : List Rule) (s : String) (o : Option Rule) :
    rules.foldl (fun acc r => if r.adoptedAt.isSome ∧ r.scope = s then some r else acc) o =
      ofirst (lastAdoptedScope rules s) o := by
  induction rules generalizing o with
  | nil => cases o <;> rfl
  | cons r rest ih =>
      simp only [lastAdoptedScope, List.foldl_cons]
      by_cases h : r.adoptedAt.isSome ∧ r.scope = s
      · rw [if_pos h, ih (some r), if_pos h, ih (some r), ofirst_assoc]
        simp [ofirst]
      · rw [if_neg h, ih o, if_neg h, ih none, ofirst_none_right]

theorem loadRuleRow_adopted (a b c : List (String × Rule)) (r : Rule)
    (h : r.adoptedAt.isSome = true) :
    loadRuleRow (a, b, c) r =
      (ainsert a r.ruleID r, ainsert b r.ruleID r, ainsert c r.scope r) := by
  unfold loadRuleRow
  dsimp only
  rw [if_pos h]

theorem loadRuleRow_not_adopted (a b c : List (String × Rule)) (r : Rule)
    (h : ¬ r.adoptedAt.isSome = true) :
    loadRuleRow (a, b, c) r = (ainsert a r.ruleID r, b, c) := by
  unfold loadRuleRow
  dsimp only
  rw [if_neg h]

theorem loadRuleFold_active (rules : List Rule) (a b c : List (String × Rule))
    (s : String) :
    alookup (rules.foldl loadRuleRow (a, b, c)).2.2 s =
      ofirst (lastAdoptedScope rules s) (alookup c s) := by
  induction rules generalizing a b c with
  | nil => rfl
  | cons r rest ih =>
      simp only [List.foldl_cons]
      have hsplit : lastAdoptedScope (r :: rest) s =
          ofirst (lastAdoptedScope rest s)
            (if r.adoptedAt.isSome ∧ r.scope = s then some r else none) := by
        simp only [lastAdoptedScope, List.foldl_cons]
        exact lastAdopted_foldl rest s _
      by_cases hAd : r.adoptedAt.isSome
      · rw [loadRuleRow_adopted a b c r hAd, ih, hsplit, ofirst_assoc]
        congr 1
        by_cases hs : r.scope = s
        · rw [if_pos ⟨hAd, hs⟩, hs, alookup_ainsert_self]
          rfl
        · rw [if_neg (fun hc => hs hc.2),
            alookup_ainsert_ne _ _ _ _ (fun hh => hs hh.symm)]
          rfl
      · rw [loadRuleRow_not_adopted a b c r hAd, ih, hsplit, ofirst_assoc]
        congr 1
        rw [if_neg (fun hc => hAd hc.1)]
        rfl

theorem loadRaftRow_active (g : GovState) (row : RaftRow)
    (h : row.raftID ≠ g.configID) (s : String) :
    alookup (loadRaftRow g row).activeRules s =
      ofirst (lastAdoptedScope row.ruleRows s) (alookup g.activeRules s) := by
  unfold loadRaftRow
  rw [if_neg (fun hc => h hc.2)]
  dsimp only
  exact loadRuleFold_active row.ruleRows _ _ _ s

theorem loadRaftRow_configID (g : GovState) (row : RaftRow) :
    (loadRaftRow g row).configID = g.configID := by
  unfold loadRaftRow
  split <;> rfl

theorem loadGov_active (g : GovState) (rows : List RaftRow)
    (h : ∀ row ∈ rows, row.raftID ≠ g.configID) (s : String) :
    alookup (loadGovernanceState g rows).activeRules s =
      ofirst (lastAdoptedScope (rows.flatMap RaftRow.ruleRows) s)
        (alookup g.activeRules s) := by
  induction rows generalizing g with
  | nil => rfl
  | cons row rest ih =>
      have hrow := loadRaftRow_active g row (h row (by simp)) s
      have hrest : ∀ r ∈ rest, r.raftID ≠ (loadRaftRow g row).configID := by
        intro r hr
        rw [loadRaftRow_configID]
        exact h r (by simp [hr])
      have hstep : alookup (loadGovernanceState (loadRaftRow g row) rest).activeRules s =
          ofirst (lastAdoptedScope (rest.flatMap RaftRow.ruleRows) s)
            (alookup (loadRaftRow g row).activeRules s) := ih (loadRaftRow g row) hrest
      have happ : lastAdoptedScope
            (row.ruleRows ++ rest.flatMap RaftRow.ruleRows) s =
          ofirst (lastAdoptedScope (rest.flatMap RaftRow.ruleRows) s)
            (lastAdoptedScope row.ruleRows s) := by
        unfold lastAdoptedScope
        rw [List.foldl_append]
        exact lastAdopted_foldl _ s _
      show alookup (loadGovernanceState (loadRaftRow g row) rest).activeRules s = _
      rw [hstep, hrow, List.flatMap_cons, happ, ofirst_assoc]

theorem loadRuleFold_nodup (rules : List Rule) (a b c : List (String × Rule))
    (h : keysNodup c) : keysNodup (rules.foldl loadRuleRow (a, b, c)).2.2 := by
  induction rules generalizing a b c with
  | nil => exact h
  | cons r rest ih =>
      simp only [List.foldl_cons]
      by_cases hAd : r.adoptedAt.isSome
      · rw [loadRuleRow_adopted a b c r hAd]
        exact ih _ _ _ (keysNodup_ainsert _ _ h)
      · rw [loadRuleRow_not_adopted a b c r hAd]
        exact ih _ _ _ h

theorem loadRaftRow_nodup (g : GovState) (row : RaftRow)
    (h : keysNodup g.activeRules) : keysNodup (loadRaftRow g row).activeRules := by
  unfold loadRaftRow
  split
  · exact h
  · exact loadRuleFold_nodup _ _ _ _ h

theorem loadGov_nodup (g : GovState) (rows : List RaftRow)
    (h : keysNodup g.activeRules) :
    keysNodup (loadGovernanceState g rows).activeRules := by
  induction rows generalizing g with
  | nil => exact h
  | cons row rest ih => exact ih _ (loadRaftRow_nodup _ _ h)

theorem activateRule_active_self (g : GovState) (r : Rule)
    (h : alookup (ainsert g.rulesIdx r.ruleID r) r.baseRuleID ≠ some r) :
    alookup (activateRule g r).activeRules r.scope = some r := by
  unfold activateRule
  dsimp only
  cases hg : alookup g.rafts r.raftID with
  | none =>
      by_cases hb : r.baseRuleID ≠ ""
      · rw [if_pos hb]
        dsimp only
        cases hbr : alookup (ainsert g.rulesIdx r.ruleID r) r.baseRuleID with
        | none => exact alookup_ainsert_self _ _ _
        | some baseRule =>
            dsimp only
            by_cases hsc : baseRule.scope = r.scope
            · have hne : ¬ alookup (ainsert g.activeRules r.scope r) baseRule.scope =
                  some baseRule := by
                rw [hsc, alookup_ainsert_self]
                intro hctr
                injection hctr with hctr
                exact h (by rw [hbr, hctr])
              rw [if_neg hne]
              exact alookup_ainsert_self _ _ _
            · by_cases hin : alookup (ainsert g.activeRules r.scope r) baseRule.scope =
                  some baseRule
              · rw [if_pos hin]
                rw [alookup_aremove_ne _ _ _ (fun hh => hsc hh.symm)]
                exact alookup_ainsert_self _ _ _
              · rw [if_neg hin]
                exact alookup_ainsert_self _ _ _
      · rw [if_neg hb]
        exact alookup_ainsert_self _ _ _
  | some raft =>
      by_cases hb : r.baseRuleID ≠ ""
      · rw [if_pos hb]
        dsimp only
        cases hbr : alookup (ainsert g.rulesIdx r.ruleID r) r.baseRuleID with
        | none => exact alookup_ainsert_self _ _ _
        | some baseRule =>
            dsimp only
            by_cases hsc : baseRule.scope = r.scope
            · have hne : ¬ alookup (ainsert g.activeRules r.scope r) baseRule.scope =
                  some baseRule := by
                rw [hsc, alookup_ainsert_self]
                intro hctr
                injection hctr with hctr
                exact h (by rw [hbr, hctr])
              rw [if_neg hne]
              exact alookup_ainsert_self _ _ _
            · by_cases hin : alookup (ainsert g.activeRules r.scope r) baseRule.scope =
                  some baseRule
              · rw [if_pos hin]
                rw [alookup_aremove_ne _ _ _ (fun hh => hsc hh.symm)]
                exact alookup_ainsert_self _ _ _
              · rw [if_neg hin]
                exact alookup_ainsert_self _ _ _
      · rw [if_neg hb]
        exact alookup_ainsert_self _ _ _

/-- C5 (amended): the active-by-scope view is keyed by scope (hence at most
one active rule per scope and per raft-scope pair), and both at runtime and
on reload it is last-writer-wins: activateRule installs its rule as the
active rule of its scope, and after loadGovernanceState each scope maps to
the LAST adopted rule for that scope in load iteration order (falling back to
the prior entry) — which need not be the rule with the latest adoptedAt
across rafts (see the counterexample). -/
theorem C5_amended (g : GovState) (rows : List RaftRow)
    (hrows : ∀ row ∈ rows, row.raftID ≠ g.configID) :
    (∀ s, alookup (GetActiveRules (loadGovernanceState g rows)) s =
        ofirst (lastAdoptedScope (rows.flatMap RaftRow.ruleRows) s)
          (alookup (GetActiveRules g) s)) ∧
    (keysNodup (GetActiveRules g) →
        keysNodup (GetActiveRules (loadGovernanceState g rows))) ∧
    (∀ r : Rule, alookup (ainsert g.rulesIdx r.ruleID r) r.baseRuleID ≠ some r →
        alookup (GetActiveRules (activateRule g r)) r.scope = some r) :=
  ⟨fun s => loadGov_active g rows hrows s,
   fun h => loadGov_nodup g rows h,
   fun r h => activateRule_active_self g r h⟩

/-- C5 witness: the load-order law applied to the concrete two-raft reload of
the counterexample, at the contested scope. -/
theorem C5_witness :
    alookup (GetActiveRules (loadGovernanceState govC5 rowsC5)) "s" =
      ofirst (lastAdoptedScope (rowsC5.flatMap RaftRow.ruleRows) "s")
        (alookup (GetActiveRules govC5) "s") :=
  (C5_amended govC5 rowsC5 (by decide)).1 "s"

end Otter
